import Mathlib

/-!
Verification development for the scp-mcp-wrapper repository.

The TypeScript sources are shallowly embedded as executable Lean
definitions.  External effects (DNS resolution, HTTPS fetches, the SQLite
file, the OS random source and the system clock) are passed in explicitly
as parameters, so every operation becomes a pure function from its inputs
and the observable environment to its result, the successor database state
and the number of network calls it performed.  JavaScript string
truthiness is modelled where the source relies on it.

The AES-256-GCM cipher of the Node crypto library (used by
src/storage/encryption.ts) is external to the repository; it is modelled
as an ideal authenticated stream cipher: a keystream XOR for
confidentiality and an injective tag over the ciphertext for authenticity,
keeping the exact encrypt-then-tag envelope structure (iv, data, tag) of
the source.  The hex/JSON serialisation of the envelope is modelled by the
structured triple itself.
-/

deriving instance DecidableEq for Except

namespace SCP

/-- Keystream byte i of the idealized stream-cipher model of AES-256-GCM. -/
def ksByte (key iv i : Nat) : Nat :=
  (key + iv * 31 + i * 17) % 256

/-- XOR a byte list with the keystream starting at position i. -/
def xorStream (key iv : Nat) : Nat → List Nat → List Nat
  | _, [] => []
  | i, b :: bs => (b ^^^ ksByte key iv i) :: xorStream key iv (i + 1) bs

/-- Base-256 fold used for the authentication tag of the model cipher. -/
def macFold (z : Nat) (l : List Nat) : Nat :=
  l.foldl (fun a b => a * 256 + b) z

/-- Authentication tag of the model cipher over the ciphertext. -/
def authTag (key iv : Nat) (ct : List Nat) : Nat :=
  macFold (key % 256 + iv % 256 + 1) ct

/-- Envelope produced by encryptToken: the (iv, ciphertext, tag) triple
that the source serialises as a hex/JSON string. -/
structure Envelope where
  iv : Nat
  data : List Nat
  tag : Nat
  deriving DecidableEq, Repr

/-- Model of encryptToken from src/storage/encryption.ts: requires the
master key cache to be populated (none models the un-initialized throw),
draws the fresh random iv from the explicit iv parameter, encrypts the
token bytes and bundles iv, ciphertext and authentication tag. -/
def encryptToken (masterKey : Option Nat) (iv : Nat) (token : List Nat) :
    Option Envelope :=
  match masterKey with
  | none => none
  | some key =>
    let ct := xorStream key iv 0 token
    some ⟨iv, ct, authTag key iv ct⟩

/-- Model of decryptToken from src/storage/encryption.ts: requires the
master key, verifies the authentication tag over the ciphertext before
releasing any plaintext, and fails closed (none) on a tag mismatch. -/
def decryptToken (masterKey : Option Nat) (env : Envelope) :
    Option (List Nat) :=
  match masterKey with
  | none => none
  | some key =>
    if env.tag = authTag key env.iv env.data then
      some (xorStream key env.iv 0 env.data)
    else
      none

/-- Envelope of encryptToken as an explicit value (used to state theorems
about records holding encrypted fields; encryptToken (some key) iv t is
definitionally some (encEnvelope key iv t)). -/
def encEnvelope (key iv : Nat) (t : List Nat) : Envelope :=
  ⟨iv, xorStream key iv 0 t, authTag key iv (xorStream key iv 0 t)⟩

/-- Exception view of decryptToken with the messages the source throws:
the un-initialized guard message, or the OpenSSL tag-mismatch failure. -/
def decryptTokenE (masterKey : Option Nat) (env : Envelope) :
    Except String (List Nat) :=
  match masterKey with
  | none => .error "Encryption not initialized - call initEncryption() first"
  | some key =>
    match decryptToken (some key) env with
    | some t => .ok t
    | none => .error "Unsupported state or unable to authenticate data"

/-- Exception view of encryptToken with the un-initialized guard message. -/
def encryptTokenE (masterKey : Option Nat) (iv : Nat) (token : List Nat) :
    Except String Envelope :=
  match encryptToken masterKey iv token with
  | some env => .ok env
  | none => .error "Encryption not initialized - call initEncryption() first"

/-- Model of the TokenResponse wire type (src/types.ts); token strings are
byte lists so they can flow into the cipher model. -/
structure TokenResponse where
  access_token : List Nat
  refresh_token : List Nat
  token_type : String
  expires_in : Int
  scope : String
  customer_id : String
  email : String
  deriving DecidableEq, Repr

/-- Model of a merchant_authorizations row (src/types.ts); the
autoincrement id column is not modelled, the domain is the key. -/
structure MerchantAuthorization where
  merchant_domain : String
  scp_endpoint : String
  customer_id : String
  customer_email : String
  access_token_encrypted : Envelope
  refresh_token_encrypted : Envelope
  expires_at : Int
  scopes : List String
  created_at : Int
  updated_at : Int
  deriving DecidableEq, Repr

/-- Model of getAuthorization (database-sqljs): point lookup by domain. -/
def getAuthorization (db : List MerchantAuthorization) (domain : String) :
    Option MerchantAuthorization :=
  db.find? (fun a => a.merchant_domain == domain)

/-- Model of updateAuthorizationTokens (database-sqljs): rewrites the token
fields, expires_at and updated_at of the row with the given domain. -/
def updateAuthorizationTokens (db : List MerchantAuthorization)
    (domain : String) (accessTokenEncrypted refreshTokenEncrypted : Envelope)
    (expiresAt now : Int) : List MerchantAuthorization :=
  db.map (fun a =>
    if a.merchant_domain == domain then
      { a with
        access_token_encrypted := accessTokenEncrypted,
        refresh_token_encrypted := refreshTokenEncrypted,
        expires_at := expiresAt,
        updated_at := now }
    else a)

/-- Model of deleteAuthorization (database-sqljs): delete by domain. -/
def deleteAuthorization (db : List MerchantAuthorization) (domain : String) :
    List MerchantAuthorization :=
  db.filter (fun a => !(a.merchant_domain == domain))

/-- Model of storeAuthorization (database-sqljs): upsert by domain; the ON
CONFLICT clause updates every mutable field but leaves created_at of the
existing row intact. -/
def storeAuthorization (db : List MerchantAuthorization)
    (a : MerchantAuthorization) : List MerchantAuthorization :=
  if (getAuthorization db a.merchant_domain).isSome then
    db.map (fun old =>
      if old.merchant_domain == a.merchant_domain then
        { a with created_at := old.created_at }
      else old)
  else
    db ++ [a]

/-- Refresh threshold of src/auth/token-manager.ts (5 minutes in ms). -/
def TOKEN_REFRESH_THRESHOLD : Int := 300000

/-- Result of one getValidAccessToken invocation: the returned token or the
thrown error message, the database afterwards, and how many refresh
requests were sent to the token endpoint. -/
structure TokenCallResult where
  result : Except String (List Nat)
  db : List MerchantAuthorization
  refreshCalls : Nat
  deriving DecidableEq, Repr

/-- Model of refreshTokenIfNeeded (src/auth/token-manager.ts): decrypts
the stored refresh token (outside the try block, so its failure is not
wrapped), performs the refresh call whose outcome is the refreshResult
parameter, encrypts the new pair, computes the new expires_at from the
clock and the server-reported lifetime, and persists; every failure
inside the try block is rethrown wrapped with the domain context. -/
def refreshTokenIfNeeded (key : Option Nat) (db : List MerchantAuthorization)
    (auth : MerchantAuthorization) (now : Int)
    (refreshResult : Except String TokenResponse) (iv1 iv2 : Nat) :
    Except String (List MerchantAuthorization) × Nat :=
  match decryptTokenE key auth.refresh_token_encrypted with
  | .error e => (.error e, 0)
  | .ok _refreshToken =>
    match refreshResult with
    | .error e =>
      (.error ("Failed to refresh token for " ++ auth.merchant_domain ++ ": " ++ e), 1)
    | .ok tr =>
      match encryptTokenE key iv1 tr.access_token with
      | .error e =>
        (.error ("Failed to refresh token for " ++ auth.merchant_domain ++ ": " ++ e), 1)
      | .ok accEnc =>
        match encryptTokenE key iv2 tr.refresh_token with
        | .error e =>
          (.error ("Failed to refresh token for " ++ auth.merchant_domain ++ ": " ++ e), 1)
        | .ok refEnc =>
          (.ok (updateAuthorizationTokens db auth.merchant_domain accEnc refEnc
            (now + tr.expires_in * 1000) now), 1)

/-- Model of getValidAccessToken (src/auth/token-manager.ts): loads the
record (absent means a thrown NotAuthorized error), refreshes when
expires_at - now < TOKEN_REFRESH_THRESHOLD, re-reads the record and
returns the decrypted access token; otherwise decrypts and returns the
still-valid stored access token. -/
def getValidAccessToken (key : Option Nat) (db : List MerchantAuthorization)
    (merchantDomain : String) (now : Int)
    (refreshResult : Except String TokenResponse) (iv1 iv2 : Nat) :
    TokenCallResult :=
  match getAuthorization db merchantDomain with
  | none => ⟨.error ("No authorization found for " ++ merchantDomain), db, 0⟩
  | some auth =>
    if auth.expires_at - now < TOKEN_REFRESH_THRESHOLD then
      match refreshTokenIfNeeded key db auth now refreshResult iv1 iv2 with
      | (.error e, n) => ⟨.error e, db, n⟩
      | (.ok db2, n) =>
        match getAuthorization db2 merchantDomain with
        | none => ⟨.error "Authorization lost after refresh", db2, n⟩
        | some updatedAuth =>
          ⟨decryptTokenE key updatedAuth.access_token_encrypted, db2, n⟩
    else
      ⟨decryptTokenE key auth.access_token_encrypted, db, 0⟩

/-- Outcome of the scp_revoke_authorization tool handler. -/
inductive RevokeResult where
  | revoked (domain : String)
  | failed (msg : String)
  deriving DecidableEq, Repr

/-- Model of handleRevokeAuthorization (the scp_revoke_authorization tool
handler): a missing record is itself an error; otherwise the access token
fetch and the remote revocation are attempted inside a try block whose
failure (remoteRevokeOk = false, or any failure inside getValidAccessToken)
is swallowed, and the local record is deleted unconditionally.  The
database state left behind by the inner getValidAccessToken call (a
possible refresh persist) is kept before the delete. -/
def handleRevokeAuthorization (key : Option Nat)
    (db : List MerchantAuthorization) (domain : String) (now : Int)
    (refreshResult : Except String TokenResponse) (iv1 iv2 : Nat)
    (remoteRevokeOk : Bool) : RevokeResult × List MerchantAuthorization :=
  match getAuthorization db domain with
  | none => (.failed ("No authorization found for " ++ domain), db)
  | some _auth =>
    let call := getValidAccessToken key db domain now refreshResult iv1 iv2
    let _ignored := remoteRevokeOk
    (.revoked domain, deleteAuthorization call.db domain)

/-- Model of the SCPConfig type (src/types.ts); the two optional fields
stay optional. -/
structure SCPConfig where
  dns_resolver : String
  dns_cache_ttl : Int
  poll_interval : Nat
  max_poll_attempts : Nat
  token_refresh_threshold : Int
  request_timeout : Int
  demo_mode : Option Bool
  demo_endpoint : Option String
  deriving DecidableEq, Repr

/-- Contents of ~/.scp/config.json as a partial configuration: none means
the key is absent from the file (an unparsable file is modelled as the
absent file, since both take the defaults). -/
structure SCPConfigFile where
  dns_resolver : Option String
  dns_cache_ttl : Option Int
  poll_interval : Option Nat
  max_poll_attempts : Option Nat
  token_refresh_threshold : Option Int
  request_timeout : Option Int
  demo_mode : Option Bool
  demo_endpoint : Option String
  deriving DecidableEq, Repr

/-- Model of DEFAULT_CONFIG (src/config.ts). -/
def DEFAULT_CONFIG : SCPConfig :=
  ⟨"1.1.1.1", 86400, 2, 150, 300, 30000, some true,
    some "https://demo.shoppercontextprotocol.io/v1"⟩

/-- Spread-merge of the file over the defaults, as in loadConfig. -/
def mergeConfig (d : SCPConfig) (f : SCPConfigFile) : SCPConfig :=
  ⟨f.dns_resolver.getD d.dns_resolver,
   f.dns_cache_ttl.getD d.dns_cache_ttl,
   f.poll_interval.getD d.poll_interval,
   f.max_poll_attempts.getD d.max_poll_attempts,
   f.token_refresh_threshold.getD d.token_refresh_threshold,
   f.request_timeout.getD d.request_timeout,
   (match f.demo_mode with
    | some b => some b
    | none => d.demo_mode),
   (match f.demo_endpoint with
    | some s => some s
    | none => d.demo_endpoint)⟩

/-- Model of loadConfig (src/config.ts): a missing config file yields (and
writes back) the defaults, otherwise the parsed file is merged over the
defaults. -/
def loadConfig : Option SCPConfigFile → SCPConfig
  | none => DEFAULT_CONFIG
  | some f => mergeConfig DEFAULT_CONFIG f

/-- JavaScript truthiness of an optional string (absent and empty are
falsy). -/
def jsTruthyStr : Option String → Bool
  | none => false
  | some s => !(s == "")

/-- JavaScript truthiness of an optional boolean. -/
def jsTruthyBoolOpt : Option Bool → Bool
  | none => false
  | some b => b

/-- Model of checkTestEndpoint (src/config.ts): the SCP_TEST_ENDPOINT
environment variable, with an empty value being falsy. -/
def checkTestEndpoint (testEndpoint : Option String) : Option String :=
  if jsTruthyStr testEndpoint then testEndpoint else none

/-- Rate-limit hints of a capability descriptor (src/types.ts). -/
structure RateLimit where
  requests_per_minute : Int
  requests_per_hour : Int
  deriving DecidableEq, Repr

/-- Model of the SCPCapabilities descriptor (src/types.ts). -/
structure SCPCapabilities where
  version : String
  protocol_version : String
  scopes_supported : List String
  authorization_endpoint : String
  token_endpoint : String
  revocation_endpoint : String
  grant_types_supported : List String
  code_challenge_methods_supported : List String
  token_endpoint_auth_methods_supported : List String
  magic_link_supported : Bool
  webhook_support : Bool
  rate_limit : Option RateLimit
  deriving DecidableEq, Repr

/-- Model of an endpoint_cache row (src/types.ts). -/
structure EndpointCache where
  domain : String
  endpoint : String
  capabilities : Option SCPCapabilities
  discovered_at : Int
  ttl : Int
  deriving DecidableEq, Repr

/-- Model of getCachedEndpoint (database-sqljs): a row whose age exceeds
ttl seconds is reported as absent. -/
def getCachedEndpoint (entry : Option EndpointCache) (now : Int) :
    Option EndpointCache :=
  match entry with
  | none => none
  | some row =>
    if now - row.discovered_at > row.ttl * 1000 then none else some row

/-- DNS resolution failure codes distinguished by tryDNSDiscovery. -/
inductive DnsError where
  | ENOTFOUND
  | ENODATA
  | other (code : String)
  deriving DecidableEq, Repr

/-- Message carried by a DNS failure when it propagates to a caller. -/
def dnsErrorMessage : DnsError → String
  | .ENOTFOUND => "ENOTFOUND"
  | .ENODATA => "ENODATA"
  | .other code => code

/-- Whitespace class of the JavaScript regular expression (the characters
that terminate the captured URL). -/
def isJsSpace (c : Char) : Bool :=
  c = ' ' || c = '\t' || c = '\n' || c = '\r'

/-- Leftmost match of the endpoint pattern of tryDNSDiscovery: scans for
the literal text endpoint=https:// and captures https:// followed by a
non-empty maximal run of non-whitespace characters. -/
def findEndpointToken : List Char → Option String
  | [] => none
  | c :: rest =>
    if ("endpoint=https://".data).isPrefixOf (c :: rest) then
      let tail := (c :: rest).drop "endpoint=https://".data.length
      let captured := tail.takeWhile (fun ch => !(isJsSpace ch))
      if captured.isEmpty then findEndpointToken rest
      else some (String.mk ("https://".data ++ captured))
    else findEndpointToken rest

/-- The JavaScript startsWith method, on the character content. -/
def strStartsWith (s pre : String) : Bool :=
  pre.data.isPrefixOf s.data

/-- The JavaScript endsWith method, on the character content. -/
def strEndsWith (s suffix : String) : Bool :=
  suffix.data.isSuffixOf s.data

/-- SCP metadata extraction from one TXT record: the chunk strings are
concatenated and the result counts only when it starts with v=scp1 and the
endpoint pattern matches. -/
def scpRecordEndpoint (record : List String) : Option String :=
  let txt := String.join record
  if strStartsWith txt "v=scp1" then findEndpointToken txt.data else none

/-- First accepted record of the TXT answer, in answer order. -/
def firstScpEndpoint : List (List String) → Option String
  | [] => none
  | r :: rs =>
    match scpRecordEndpoint r with
    | some url => some url
    | none => firstScpEndpoint rs

/-- Model of tryDNSDiscovery (src/discovery/dns-lookup.ts): ENOTFOUND and
ENODATA are normal misses; any other resolution failure propagates. -/
def tryDNSDiscovery (dnsTxt : Except DnsError (List (List String))) :
    Except DnsError (Option String) :=
  match dnsTxt with
  | .ok records => .ok (firstScpEndpoint records)
  | .error DnsError.ENOTFOUND => .ok none
  | .error DnsError.ENODATA => .ok none
  | .error (DnsError.other code) => .error (.other code)

/-- Model of tryFallbackDiscovery (src/discovery/dns-lookup.ts): the
well-known probe wins when it produced a truthy endpoint string, then the
SCP-Endpoint response header; fetch failures and non-ok responses are
collapsed into the absent value of each probe. -/
def tryFallbackDiscovery (wellKnownEndpoint headerEndpoint : Option String) :
    Option String :=
  if jsTruthyStr wellKnownEndpoint then wellKnownEndpoint
  else if jsTruthyStr headerEndpoint then headerEndpoint
  else none

/-- Observable environment of one discovery run for one domain: the
override variable, the config file, the cache row for the domain, the
clock, the TXT answer and the two HTTPS probe answers. -/
structure DiscoveryEnv where
  testEndpoint : Option String
  configFile : Option SCPConfigFile
  cacheEntry : Option EndpointCache
  now : Int
  dnsTxt : Except DnsError (List (List String))
  wellKnownEndpoint : Option String
  headerEndpoint : Option String

/-- Result of discoverSCPEndpoint: the endpoint (or a propagated DNS
failure), the cache rows written back, and the network requests made. -/
structure DiscoveryOutcome where
  endpoint : Except DnsError (Option String)
  cacheWrites : List EndpointCache
  netCalls : Nat
  deriving DecidableEq, Repr

/-- Demo endpoint selection of discoverSCPEndpoint: the configured value
with the literal fallback for an absent or empty configuration. -/
def demoEndpointOf (config : SCPConfig) : String :=
  match config.demo_endpoint with
  | some s => if s == "" then "https://demo.shoppercontextprotocol.io/v1" else s
  | none => "https://demo.shoppercontextprotocol.io/v1"

/-- Model of discoverSCPEndpoint (src/discovery/dns-lookup.ts): the
priority chain override, demo mode, unexpired cache row, DNS TXT record,
well-known probe, header probe, each short-circuiting; a DNS or fallback
hit is written back to the cache with a 24-hour ttl. -/
def discoverSCPEndpoint (env : DiscoveryEnv) (domain : String) :
    DiscoveryOutcome :=
  match checkTestEndpoint env.testEndpoint with
  | some t => ⟨.ok (some t), [], 0⟩
  | none =>
    let config := loadConfig env.configFile
    if jsTruthyBoolOpt config.demo_mode then
      ⟨.ok (some (demoEndpointOf config)), [], 0⟩
    else
      match getCachedEndpoint env.cacheEntry env.now with
      | some cached => ⟨.ok (some cached.endpoint), [], 0⟩
      | none =>
        match tryDNSDiscovery env.dnsTxt with
        | .error e => ⟨.error e, [], 1⟩
        | .ok (some dnsEndpoint) =>
          ⟨.ok (some dnsEndpoint), [⟨domain, dnsEndpoint, none, env.now, 86400⟩], 1⟩
        | .ok none =>
          match tryFallbackDiscovery env.wellKnownEndpoint env.headerEndpoint with
          | some fb =>
            ⟨.ok (some fb), [⟨domain, fb, none, env.now, 86400⟩],
              if jsTruthyStr env.wellKnownEndpoint then 2 else 3⟩
          | none => ⟨.ok none, [], 3⟩

/-- Model of discoverWithCapabilities (src/discovery/dns-lookup.ts): on a
resolved endpoint the capabilities fetch is attempted once; its failure is
non-fatal and leaves a null descriptor, its success is cached. -/
def discoverWithCapabilities (env : DiscoveryEnv)
    (capsResult : Except String SCPCapabilities) (domain : String) :
    Except DnsError (Option (String × Option SCPCapabilities)) ×
      List EndpointCache × Nat :=
  let d := discoverSCPEndpoint env domain
  match d.endpoint with
  | .error e => (.error e, d.cacheWrites, d.netCalls)
  | .ok none => (.ok none, d.cacheWrites, d.netCalls)
  | .ok (some ep) =>
    match capsResult with
    | .ok caps =>
      (.ok (some (ep, some caps)),
        d.cacheWrites ++ [⟨domain, ep, some caps, env.now, 86400⟩],
        d.netCalls + 1)
    | .error _ => (.ok (some (ep, none)), d.cacheWrites, d.netCalls + 1)

/-- Model of the PollResponse wire type (src/types.ts); the status is kept
as the raw string so that unknown statuses can be stated. -/
structure PollResponse where
  status : String
  code : Option String
  expires_in : Option Int
  reason : Option String
  error : Option String
  deriving DecidableEq, Repr

/-- Terminal outcome of the poll loop of pollAuthorization. -/
inductive PollOutcome where
  | success (code : String)
  | denied (reason : String)
  | expired
  | timeout
  | httpError (msg : String)
  deriving DecidableEq, Repr

/-- Trace of one pollAuthorization run: the outcome, the number of poll
requests sent, and the total milliseconds slept between polls. -/
structure PollRun where
  outcome : PollOutcome
  polls : Nat
  sleptMs : Nat
  deriving DecidableEq, Repr

/-- Poll loop of pollAuthorization (src/auth/oauth-client.ts): while the
attempt counter is below the cap, query the status; authorized with a
truthy code succeeds, denied and expired are terminal failures, any other
status (including authorized without a code) sleeps one interval and
continues; an exhausted cap times out.  getStatus n is the wire answer to
poll request n, an error being a non-ok HTTP response. -/
def pollLoop (getStatus : Nat → Except String PollResponse)
    (pollInterval : Nat) :
    Nat → Nat → Nat → Nat → PollRun
  | 0, _, polls, slept => ⟨.timeout, polls, slept⟩
  | remaining + 1, attempt, polls, slept =>
    match getStatus attempt with
    | .error msg => ⟨.httpError ("Poll failed: " ++ msg), polls + 1, slept⟩
    | .ok pr =>
      if pr.status == "authorized" && jsTruthyStr pr.code then
        ⟨.success (pr.code.getD ""), polls + 1, slept⟩
      else if pr.status == "denied" then
        let reason := pr.reason.getD ""
        ⟨.denied (if reason == "" then "User declined" else reason),
          polls + 1, slept⟩
      else if pr.status == "expired" then
        ⟨.expired, polls + 1, slept⟩
      else
        pollLoop getStatus pollInterval remaining (attempt + 1) (polls + 1)
          (slept + pollInterval * 1000)

/-- Default attempt cap of pollAuthorization (150 attempts). -/
def defaultMaxPollAttempts : Nat := 150

/-- Default poll interval of pollAuthorization (2 seconds). -/
def defaultPollInterval : Nat := 2

/-- Model of pollAuthorization (src/auth/oauth-client.ts). -/
def pollAuthorization (getStatus : Nat → Except String PollResponse)
    (maxAttempts pollInterval : Nat) : PollRun :=
  pollLoop getStatus pollInterval maxAttempts 0 0 0

/-- Thrown message of each terminal poll outcome, as thrown by
pollAuthorization and caught by callers of the flow. -/
def pollOutcomeToExcept : PollOutcome → Except String String
  | .success code => .ok code
  | .denied reason => .error ("Authorization denied: " ++ reason)
  | .expired => .error "Authorization request expired"
  | .timeout => .error "Authorization timeout: maximum poll attempts reached"
  | .httpError m => .error m

/-- Observable environment of one authorization flow: the initiation
answer (flow id and suggested poll interval), the per-poll answers, and
the token-exchange answer. -/
structure FlowEnv where
  initResult : Except String (String × Nat)
  pollStatus : Nat → Except String PollResponse
  exchangeResult : Except String TokenResponse

/-- Model of completeAuthorizationFlow (src/auth/oauth-client.ts):
initiation, then polling at the suggested interval with the given cap,
then the code-for-tokens exchange; the granted scopes are the
space-separated scope string of the token response.  The second component
counts the network requests made. -/
def completeAuthorizationFlow (env : FlowEnv) (maxPollAttempts : Nat) :
    Except String (TokenResponse × List String) × Nat :=
  match env.initResult with
  | .error e => (.error e, 1)
  | .ok (_authRequestId, pollInterval) =>
    let run := pollAuthorization env.pollStatus maxPollAttempts pollInterval
    match pollOutcomeToExcept run.outcome with
    | .error e => (.error e, 1 + run.polls)
    | .ok _code =>
      match env.exchangeResult with
      | .error e => (.error e, 1 + run.polls + 1)
      | .ok tr => (.ok (tr, tr.scope.splitOn " "), 1 + run.polls + 1)

/-- Substring test on character lists (the JavaScript includes method). -/
def listContainsSub (needle : List Char) : List Char → Bool
  | [] => needle.isEmpty
  | c :: rest => needle.isPrefixOf (c :: rest) || listContainsSub needle rest

/-- The JavaScript includes method on strings. -/
def strIncludes (hay needle : String) : Bool :=
  listContainsSub needle.data hay.data

/-- Email validation gate at the top of handleAuthorize: example emails
are rejected before anything else happens. -/
def isRejectedEmail (email : String) : Bool :=
  strEndsWith email "@example.com" || strIncludes email "example"

/-- Insertion-ordered deduplication (the JavaScript Set constructor over
an array of strings). -/
def dedupScopes (l : List String) : List String :=
  l.foldl (fun acc s => if s ∈ acc then acc else acc ++ [s]) []

/-- Scope-set comparison of handleAuthorize: equal set sizes and every
requested scope already granted. -/
def scopesMatch (existing requested : List String) : Bool :=
  (dedupScopes existing).length == (dedupScopes requested).length &&
  (dedupScopes requested).all (fun s => (dedupScopes existing).contains s)

/-- Outcome of the scp_authorize tool handler, one constructor per
distinguishable response (the text blocks of the source). -/
inductive AuthorizeResult where
  | invalidEmail (email : String)
  | alreadyAuthorized (email : String) (scopes : List String)
  | identityConflict (existingEmail newEmail : String)
  | authorized (reauthorized : Bool) (scope : String) (email : String)
  | failed (msg : String)
  deriving DecidableEq, Repr

/-- Observable environment of one handleAuthorize invocation. -/
structure AuthEnv where
  denv : DiscoveryEnv
  capsResult : Except String SCPCapabilities
  flow : FlowEnv

/-- Discovery-and-flow tail of handleAuthorize (everything after the
short-circuit checks): discovery with capabilities, scope validation
against a present descriptor, the full flow, and the upsert that
preserves the original creation timestamp. -/
def handleAuthorizeFlow (key : Option Nat) (db : List MerchantAuthorization)
    (domain : String) (scopes : List String) (env : AuthEnv)
    (now : Int) (iv1 iv2 : Nat) (existing : Option MerchantAuthorization) :
    AuthorizeResult × List MerchantAuthorization × Nat :=
  match discoverWithCapabilities env.denv env.capsResult domain with
  | (.error e, _, n) => (.failed (dnsErrorMessage e), db, n)
  | (.ok none, _, n) =>
    (.failed ("Could not discover Shopper Context Protocol endpoint for " ++ domain),
      db, n)
  | (.ok (some (endpoint, capabilities)), _, n) =>
    let unsupported :=
      match capabilities with
      | some caps => scopes.filter (fun s => !(caps.scopes_supported.contains s))
      | none => []
    if !unsupported.isEmpty then
      (.failed ("Unsupported scopes: " ++ String.intercalate ", " unsupported),
        db, n)
    else
      match completeAuthorizationFlow env.flow defaultMaxPollAttempts with
      | (.error e, m) => (.failed e, db, n + m)
      | (.ok (tr, _granted), m) =>
        match encryptTokenE key iv1 tr.access_token with
        | .error e => (.failed e, db, n + m)
        | .ok accEnc =>
          match encryptTokenE key iv2 tr.refresh_token with
          | .error e => (.failed e, db, n + m)
          | .ok refEnc =>
            let created :=
              match existing with
              | some e0 => e0.created_at
              | none => now
            let a : MerchantAuthorization :=
              ⟨domain, endpoint, tr.customer_id, tr.email, accEnc, refEnc,
                now + tr.expires_in * 1000, tr.scope.splitOn " ", created, now⟩
            (.authorized existing.isSome tr.scope tr.email,
              storeAuthorization db a, n + m)

/-- Model of handleAuthorize (the scp_authorize tool handler): the email
validation gate, then the already-authorized short-circuit when both the
email and the deduplicated scope set match, then the identity-conflict
refusal on an email mismatch, and otherwise the full discovery-and-flow
tail.  The last component counts the network requests made. -/
def handleAuthorize (key : Option Nat) (db : List MerchantAuthorization)
    (domain email : String) (scopes : List String) (env : AuthEnv)
    (now : Int) (iv1 iv2 : Nat) :
    AuthorizeResult × List MerchantAuthorization × Nat :=
  if isRejectedEmail email then (.invalidEmail email, db, 0)
  else
    match getAuthorization db domain with
    | some existing =>
      if scopesMatch existing.scopes scopes && existing.customer_email == email then
        (.alreadyAuthorized existing.customer_email existing.scopes, db, 0)
      else if !(existing.customer_email == email) then
        (.identityConflict existing.customer_email email, db, 0)
      else
        handleAuthorizeFlow key db domain scopes env now iv1 iv2 (some existing)
    | none => handleAuthorizeFlow key db domain scopes env now iv1 iv2 none

/-- Sample pending poll answer for concrete instantiations. -/
def pendingResponse : PollResponse := ⟨"pending", none, none, none, none⟩

/-- Sample authorized poll answer carrying a code. -/
def authorizedResponse (code : String) : PollResponse :=
  ⟨"authorized", some code, none, none, none⟩

/-- Sample token response used by concrete instantiations. -/
def sampleTokenResponse : TokenResponse :=
  ⟨[11, 22], [33, 44], "Bearer", 3600, "orders", "cust-1", "alice@real.test"⟩

/-- Sample stored authorization with a decryptable token pair under master
key 7 and a configurable expiry. -/
def sampleAuth (expiresAt : Int) : MerchantAuthorization :=
  ⟨"shop.test", "https://scp.shop.test/v1", "cust-1", "alice@real.test",
    encEnvelope 7 5 [10, 20, 30], encEnvelope 7 6 [40, 50], expiresAt,
    ["orders"], 0, 0⟩

/-- Sample stored authorization whose customer email contains the
substring example, as a server could have reported it. -/
def exampleEmailAuth : MerchantAuthorization :=
  ⟨"shop.test", "https://scp.shop.test/v1", "cust-1", "bob@example.com",
    encEnvelope 7 5 [10, 20, 30], encEnvelope 7 6 [40, 50], 9999999,
    ["orders"], 0, 0⟩

/-- Config file that disables demo mode and changes nothing else. -/
def demoOffFile : SCPConfigFile :=
  ⟨none, none, none, none, none, none, some false, none⟩

/-- Discovery environment in which every chain step misses. -/
def envAllMiss : DiscoveryEnv :=
  ⟨none, some demoOffFile, none, 0, .ok [], none, none⟩

/-- Flow environment answering pending, pending, authorized with code K,
with a successful initiation and exchange. -/
def sampleFlowEnv : FlowEnv :=
  ⟨.ok ("req-1", 2),
    fun n => if n < 2 then .ok pendingResponse else .ok (authorizedResponse "K"),
    .ok sampleTokenResponse⟩

/-- Authorize environment over the all-miss discovery environment (its
pieces are never reached by the short-circuit claims). -/
def sampleAuthEnv : AuthEnv :=
  ⟨envAllMiss, .error "no capabilities", sampleFlowEnv⟩

end SCP

namespace SCP

theorem xorStream_involutive (key iv : Nat) :
    ∀ (i : Nat) (l : List Nat), xorStream key iv i (xorStream key iv i l) = l := by
  intro i l
  induction l generalizing i with
  | nil => rfl
  | cons b bs ih => simp [xorStream, Nat.xor_cancel_right, ih]

theorem xorStream_length (key iv : Nat) :
    ∀ (i : Nat) (l : List Nat), (xorStream key iv i l).length = l.length := by
  intro i l
  induction l generalizing i with
  | nil => rfl
  | cons b bs ih => simp [xorStream, ih]

theorem ksByte_lt (key iv i : Nat) : ksByte key iv i < 256 :=
  Nat.mod_lt _ (by decide)

theorem xor_lt_256 {a b : Nat} (ha : a < 256) (hb : b < 256) : a ^^^ b < 256 :=
  Nat.bitwise_lt_two_pow (n := 8) ha hb

theorem xorStream_lt (key iv : Nat) :
    ∀ (i : Nat) (l : List Nat), (∀ b ∈ l, b < 256) →
      ∀ c ∈ xorStream key iv i l, c < 256 := by
  intro i l
  induction l generalizing i with
  | nil => intro _ c hc; simp [xorStream] at hc
  | cons b bs ih =>
    intro hl c hc
    simp only [xorStream, List.mem_cons] at hc
    rcases hc with hc | hc
    · subst hc
      exact xor_lt_256 (hl b (by simp)) (ksByte_lt key iv i)
    · exact ih (i + 1) (fun x hx => hl x (by simp [hx])) c hc

theorem macFold_shift (l : List Nat) :
    ∀ z : Nat, macFold z l = z * 256 ^ l.length + macFold 0 l := by
  induction l with
  | nil => intro z; simp [macFold]
  | cons b bs ih =>
    intro z
    have h1 : macFold z (b :: bs) = macFold (z * 256 + b) bs := rfl
    have h2 : macFold 0 (b :: bs) = macFold b bs := by simp [macFold]
    rw [h1, ih (z * 256 + b), h2, ih b]
    ring_nf
    simp [List.length_cons, pow_succ]
    ring

theorem macFold_zero_lt (l : List Nat) (h : ∀ b ∈ l, b < 256) :
    macFold 0 l < 256 ^ l.length := by
  induction l with
  | nil => simp [macFold]
  | cons b bs ih =>
    have hb : b < 256 := h b (by simp)
    have hbs : macFold 0 bs < 256 ^ bs.length :=
      ih (fun x hx => h x (by simp [hx]))
    have h1 : macFold 0 (b :: bs) = b * 256 ^ bs.length + macFold 0 bs := by
      have : macFold 0 (b :: bs) = macFold b bs := by simp [macFold]
      rw [this, macFold_shift]
    rw [h1]
    calc b * 256 ^ bs.length + macFold 0 bs
        < b * 256 ^ bs.length + 256 ^ bs.length := by omega
      _ = (b + 1) * 256 ^ bs.length := by ring
      _ ≤ 256 * 256 ^ bs.length := by
          exact Nat.mul_le_mul_right _ (by omega)
      _ = 256 ^ (b :: bs).length := by
          simp [List.length_cons, pow_succ]; ring

theorem macFold_zero_inj :
    ∀ (l1 l2 : List Nat), l1.length = l2.length →
      (∀ b ∈ l1, b < 256) → (∀ b ∈ l2, b < 256) →
      macFold 0 l1 = macFold 0 l2 → l1 = l2 := by
  intro l1
  induction l1 with
  | nil =>
    intro l2 hlen _ _ _
    cases l2 with
    | nil => rfl
    | cons c cs => simp at hlen
  | cons b bs ih =>
    intro l2 hlen hb1 hb2 heq
    cases l2 with
    | nil => simp at hlen
    | cons c cs =>
      have hlen' : bs.length = cs.length := by simpa using hlen
      have h1 : macFold 0 (b :: bs) = b * 256 ^ bs.length + macFold 0 bs := by
        have : macFold 0 (b :: bs) = macFold b bs := by simp [macFold]
        rw [this, macFold_shift]
      have h2 : macFold 0 (c :: cs) = c * 256 ^ cs.length + macFold 0 cs := by
        have : macFold 0 (c :: cs) = macFold c cs := by simp [macFold]
        rw [this, macFold_shift]
      rw [h1, h2, ← hlen'] at heq
      have hrb : macFold 0 bs < 256 ^ bs.length :=
        macFold_zero_lt bs (fun x hx => hb1 x (by simp [hx]))
      have hrc : macFold 0 cs < 256 ^ bs.length := by
        rw [hlen']
        exact macFold_zero_lt cs (fun x hx => hb2 x (by simp [hx]))
      have hP : 0 < 256 ^ bs.length := Nat.pow_pos (by decide)
      have e1 : (b * 256 ^ bs.length + macFold 0 bs) / 256 ^ bs.length = b := by
        rw [Nat.mul_comm, Nat.mul_add_div hP, Nat.div_eq_of_lt hrb, Nat.add_zero]
      have e2 : (c * 256 ^ bs.length + macFold 0 cs) / 256 ^ bs.length = c := by
        rw [Nat.mul_comm, Nat.mul_add_div hP, Nat.div_eq_of_lt hrc, Nat.add_zero]
      have hbc : b = c := by rw [← e1, ← e2, heq]
      have hrest : macFold 0 bs = macFold 0 cs := by
        subst hbc; omega
      have := ih cs hlen' (fun x hx => hb1 x (by simp [hx]))
        (fun x hx => hb2 x (by simp [hx])) hrest
      rw [hbc, this]

theorem macFold_inj (z : Nat) (l1 l2 : List Nat) (hlen : l1.length = l2.length)
    (hb1 : ∀ b ∈ l1, b < 256) (hb2 : ∀ b ∈ l2, b < 256)
    (heq : macFold z l1 = macFold z l2) : l1 = l2 := by
  rw [macFold_shift l1 z, macFold_shift l2 z, hlen] at heq
  exact macFold_zero_inj l1 l2 hlen hb1 hb2 (by omega)

theorem authTag_inj (key iv : Nat) (ct1 ct2 : List Nat)
    (hlen : ct1.length = ct2.length)
    (hb1 : ∀ b ∈ ct1, b < 256) (hb2 : ∀ b ∈ ct2, b < 256)
    (heq : authTag key iv ct1 = authTag key iv ct2) : ct1 = ct2 :=
  macFold_inj _ ct1 ct2 hlen hb1 hb2 heq

theorem xor_pow_ne {a : Nat} (j : Nat) : a ^^^ 2 ^ j ≠ a := by
  intro h
  have h1 : a ^^^ (a ^^^ 2 ^ j) = a ^^^ a := congrArg (fun z => a ^^^ z) h
  rw [Nat.xor_cancel_left, Nat.xor_self] at h1
  exact absurd h1 (Nat.pos_iff_ne_zero.mp (Nat.pow_pos (by decide)))

theorem set_get_xor_ne (l : List Nat) (i j : Nat) (hi : i < l.length) :
    l.set i (l.get ⟨i, hi⟩ ^^^ 2 ^ j) ≠ l := by
  intro h
  have h1 : (l.set i (l.get ⟨i, hi⟩ ^^^ 2 ^ j)).getD i 0 = l.getD i 0 := by rw [h]
  have h2 : (l.set i (l.get ⟨i, hi⟩ ^^^ 2 ^ j)).getD i 0 =
      l.get ⟨i, hi⟩ ^^^ 2 ^ j := by
    simp [List.getD_eq_getElem?_getD, List.getElem?_set_self, hi]
  have h3 : l.getD i 0 = l.get ⟨i, hi⟩ := by
    simp [List.getD_eq_getElem?_getD, List.getElem?_eq_getElem hi,
      List.get_eq_getElem]
  rw [h2, h3] at h1
  exact xor_pow_ne j h1

theorem encryptToken_eq (key iv : Nat) (T : List Nat) :
    encryptToken (some key) iv T = some (encEnvelope key iv T) := rfl

/-- C3: after the master key is initialized, decryptToken inverts
encryptToken on every token byte string; flipping any bit of the stored
authentication tag, or any bit of any stored ciphertext byte, makes
decryptToken fail closed, returning no plaintext at all. -/
theorem C3_encrypt_roundtrip_tamper_fail_closed
    (key iv : Nat) (T : List Nat) (hT : ∀ b ∈ T, b < 256) :
    (encryptToken (some key) iv T).bind (decryptToken (some key)) = some T ∧
    (∀ j : Nat,
      decryptToken (some key)
        { encEnvelope key iv T with
          tag := (encEnvelope key iv T).tag ^^^ 2 ^ j } = none) ∧
    (∀ i j : Nat, ∀ hi : i < (encEnvelope key iv T).data.length, j < 8 →
      decryptToken (some key)
        { encEnvelope key iv T with
          data := (encEnvelope key iv T).data.set i
            ((encEnvelope key iv T).data.get ⟨i, hi⟩ ^^^ 2 ^ j) } = none) := by
  refine ⟨?_, ?_, ?_⟩
  · simp [encryptToken, encEnvelope, decryptToken, xorStream_involutive]
  · intro j
    simp only [decryptToken, encEnvelope]
    rw [if_neg (xor_pow_ne j)]
  · intro i j hi hj
    simp only [encEnvelope] at hi ⊢
    have hctb : ∀ x ∈ xorStream key iv 0 T, x < 256 := xorStream_lt key iv 0 T hT
    have hblt : (xorStream key iv 0 T).get ⟨i, hi⟩ < 256 :=
      hctb _ (List.get_mem _ i hi)
    have hvlt : (xorStream key iv 0 T).get ⟨i, hi⟩ ^^^ 2 ^ j < 256 := by
      refine xor_lt_256 hblt ?_
      calc (2 : Nat) ^ j ≤ 2 ^ 7 := Nat.pow_le_pow_right (by decide) (by omega)
        _ < 256 := by decide
    have hdb : ∀ x ∈ (xorStream key iv 0 T).set i
        ((xorStream key iv 0 T).get ⟨i, hi⟩ ^^^ 2 ^ j), x < 256 := by
      intro x hx
      rcases List.mem_or_eq_of_mem_set hx with hx | hx
      · exact hctb x hx
      · subst hx; exact hvlt
    have hne := set_get_xor_ne (xorStream key iv 0 T) i j hi
    have htagne : authTag key iv (xorStream key iv 0 T) ≠
        authTag key iv ((xorStream key iv 0 T).set i
          ((xorStream key iv 0 T).get ⟨i, hi⟩ ^^^ 2 ^ j)) := by
      intro h
      exact hne (authTag_inj key iv _ _ (by simp [List.length_set]) hdb hctb h.symm)
    simp only [decryptToken]
    rw [if_neg htagne]

/-- C3 witness: the round trip and both fail-closed cases evaluated at the
concrete key 7, iv 5, token bytes [10, 20, 30], bit 3 of the tag and bit 2
of ciphertext byte 1. -/
theorem C3_witness :
    (encryptToken (some 7) 5 [10, 20, 30]).bind (decryptToken (some 7)) =
      some [10, 20, 30] ∧
    decryptToken (some 7)
      { encEnvelope 7 5 [10, 20, 30] with
        tag := (encEnvelope 7 5 [10, 20, 30]).tag ^^^ 2 ^ 3 } = none ∧
    decryptToken (some 7)
      { encEnvelope 7 5 [10, 20, 30] with
        data := (encEnvelope 7 5 [10, 20, 30]).data.set 1
          ((encEnvelope 7 5 [10, 20, 30]).data.get ⟨1, by decide⟩ ^^^ 2 ^ 2) } =
      none := by
  obtain ⟨h1, h2, h3⟩ :=
    C3_encrypt_roundtrip_tamper_fail_closed 7 5 [10, 20, 30] (by decide)
  exact ⟨h1, h2 3, h3 1 2 (by decide) (by decide)⟩

theorem empty_append_str (s : String) : "" ++ s = s := by
  cases s
  rfl

/-- C9: DNS TXT parsing accepts the value v=scp1 endpoint=https://x.example/v1
and resolves it to https://x.example/v1, while a TXT value that does not
start with v=scp1 is ignored even when it contains an endpoint token. -/
theorem C9_txt_record_acceptance :
    tryDNSDiscovery (.ok [["v=scp1 endpoint=https://x.example/v1"]]) =
      .ok (some "https://x.example/v1") ∧
    (∀ txt : String, strStartsWith txt "v=scp1" = false →
      tryDNSDiscovery (.ok [[txt]]) = .ok none) := by
  constructor
  · rfl
  · intro txt h
    have hjoin : String.join [txt] = txt := by
      simp [String.join, empty_append_str]
    simp [tryDNSDiscovery, firstScpEndpoint, scpRecordEndpoint, hjoin, h]

/-- C9 witness: a TXT value carrying an endpoint token but no v=scp1 tag is
ignored. -/
theorem C9_witness :
    tryDNSDiscovery (.ok [["endpoint=https://evil.example/v1"]]) = .ok none :=
  C9_txt_record_acceptance.2 "endpoint=https://evil.example/v1" (by rfl)

theorem pollLoop_succ (getStatus : Nat → Except String PollResponse)
    (pollInterval r attempt polls slept : Nat) :
    pollLoop getStatus pollInterval (r + 1) attempt polls slept =
      match getStatus attempt with
      | .error msg => ⟨.httpError ("Poll failed: " ++ msg), polls + 1, slept⟩
      | .ok pr =>
        if pr.status == "authorized" && jsTruthyStr pr.code then
          ⟨.success (pr.code.getD ""), polls + 1, slept⟩
        else if pr.status == "denied" then
          let reason := pr.reason.getD ""
          ⟨.denied (if reason == "" then "User declined" else reason),
            polls + 1, slept⟩
        else if pr.status == "expired" then
          ⟨.expired, polls + 1, slept⟩
        else
          pollLoop getStatus pollInterval r (attempt + 1) (polls + 1)
            (slept + pollInterval * 1000) := rfl

theorem pollLoop_pending_step (gs : Nat → Except String PollResponse)
    (pollInterval r attempt polls slept : Nat)
    (h : gs attempt = .ok pendingResponse) :
    pollLoop gs pollInterval (r + 1) attempt polls slept =
      pollLoop gs pollInterval r (attempt + 1) (polls + 1)
        (slept + pollInterval * 1000) := by
  rw [pollLoop_succ, h]
  norm_num [pendingResponse, jsTruthyStr]
  rw [if_neg (show ¬("pending" : String) = "denied" from by decide)]
  rw [if_neg (show ¬("pending" : String) = "expired" from by decide)]

theorem pollLoop_allPending (pollInterval : Nat) :
    ∀ (r attempt polls slept : Nat),
      pollLoop (fun _ => .ok pendingResponse) pollInterval r attempt polls slept =
        ⟨.timeout, polls + r, slept + r * (pollInterval * 1000)⟩ := by
  intro r
  induction r with
  | zero => intro attempt polls slept; simp [pollLoop]
  | succ n ih =>
    intro attempt polls slept
    rw [pollLoop_pending_step _ _ _ _ _ _ rfl, ih]
    simp only [PollRun.mk.injEq, true_and]
    constructor
    · omega
    · ring

/-- C4: with a poll answer sequence pending, pending, authorized with code
K, pollAuthorization under the default attempt cap 150 sleeps exactly two
poll intervals and returns K on the third poll; any answered status that
is not authorized-with-a-truthy-code, denied or expired makes the loop
sleep one interval and continue; and a run that stays pending for the
whole cap ends in the timeout failure. -/
theorem C4_poll_loop (K : String) (hK : K ≠ "") (pollInterval : Nat)
    (getStatus : Nat → Except String PollResponse)
    (h0 : getStatus 0 = .ok pendingResponse)
    (h1 : getStatus 1 = .ok pendingResponse)
    (h2 : getStatus 2 = .ok (authorizedResponse K)) :
    defaultMaxPollAttempts = 150 ∧
    pollAuthorization getStatus defaultMaxPollAttempts pollInterval =
      ⟨.success K, 3, 2 * (pollInterval * 1000)⟩ ∧
    (∀ (gs : Nat → Except String PollResponse) (pr : PollResponse)
        (r attempt polls slept : Nat),
      gs attempt = .ok pr →
      (pr.status == "authorized" && jsTruthyStr pr.code) = false →
      (pr.status == "denied") = false →
      (pr.status == "expired") = false →
      pollLoop gs pollInterval (r + 1) attempt polls slept =
        pollLoop gs pollInterval r (attempt + 1) (polls + 1)
          (slept + pollInterval * 1000)) ∧
    pollAuthorization (fun _ => .ok pendingResponse) defaultMaxPollAttempts
        pollInterval =
      ⟨.timeout, 150, 150 * (pollInterval * 1000)⟩ := by
  refine ⟨rfl, ?_, ?_, ?_⟩
  · show pollLoop getStatus pollInterval 150 0 0 0 = _
    rw [show (150 : Nat) = 149 + 1 from rfl,
      pollLoop_pending_step _ _ _ _ _ _ h0]
    rw [show (149 : Nat) = 148 + 1 from rfl,
      pollLoop_pending_step _ _ _ _ _ _ h1]
    rw [show (148 : Nat) = 147 + 1 from rfl, pollLoop_succ, h2]
    simp [authorizedResponse, jsTruthyStr, hK, PollRun.mk.injEq]
    omega
  · intro gs pr r attempt polls slept hgs hcode hden hexp
    rw [pollLoop_succ, hgs]
    simp [hcode, hden, hexp]
  · show pollLoop _ pollInterval 150 0 0 0 = _
    rw [pollLoop_allPending]
    simp

/-- C4 witness: the concrete sequence pending, pending, authorized with
code K at interval 2 succeeds on the third poll after 4000 ms of sleep,
and the all-pending run under the cap 150 times out. -/
theorem C4_witness :
    pollAuthorization sampleFlowEnv.pollStatus defaultMaxPollAttempts 2 =
      ⟨.success "K", 3, 2 * (2 * 1000)⟩ ∧
    pollAuthorization (fun _ => .ok pendingResponse) defaultMaxPollAttempts 2 =
      ⟨.timeout, 150, 150 * (2 * 1000)⟩ := by
  obtain ⟨_, hrun, _, htimeout⟩ :=
    C4_poll_loop "K" (by decide) 2 sampleFlowEnv.pollStatus rfl rfl rfl
  exact ⟨hrun, htimeout⟩

theorem getAuthorization_domain (db : List MerchantAuthorization) (d : String)
    (auth : MerchantAuthorization) (h : getAuthorization db d = some auth) :
    auth.merchant_domain = d := by
  simp only [getAuthorization] at h
  have h2 := @List.find?_some _ _ _ _ h
  exact eq_of_beq h2

theorem getAuthorization_update (db : List MerchantAuthorization) (d : String)
    (a r : Envelope) (e n : Int) :
    getAuthorization (updateAuthorizationTokens db d a r e n) d =
      (getAuthorization db d).map (fun x =>
        { x with
          access_token_encrypted := a, refresh_token_encrypted := r,
          expires_at := e, updated_at := n }) := by
  induction db with
  | nil => rfl
  | cons hd tl ih =>
    simp only [updateAuthorizationTokens, List.map_cons, getAuthorization] at ih ⊢
    by_cases h : (hd.merchant_domain == d) = true
    · rw [if_pos h]
      rw [List.find?_cons_of_pos _ (by simpa using h),
        List.find?_cons_of_pos _ (by simpa using h)]
      rfl
    · rw [if_neg h]
      rw [List.find?_cons_of_neg _ (by simpa using h),
        List.find?_cons_of_neg _ (by simpa using h)]
      exact ih

theorem decryptTokenE_encEnvelope (k iv : Nat) (t : List Nat) :
    decryptTokenE (some k) (encEnvelope k iv t) = .ok t := by
  simp [decryptTokenE, decryptToken, encEnvelope, xorStream_involutive]

/-- C1: getValidAccessToken with threshold 300000 ms returns the decrypted
stored access token and leaves the database untouched with zero refresh
calls while now is before expires_at minus the threshold; within the
threshold it makes exactly one refresh call, persists the new encrypted
pair under a newly computed expires_at, and returns the freshly decrypted
new access token. -/
theorem C1_getValidAccessToken (k : Nat) (db : List MerchantAuthorization)
    (d : String) (now : Int) (auth : MerchantAuthorization)
    (refreshResult : Except String TokenResponse) (iv1 iv2 : Nat)
    (pt rt : List Nat) (tr : TokenResponse)
    (hget : getAuthorization db d = some auth) :
    TOKEN_REFRESH_THRESHOLD = 300000 ∧
    (now < auth.expires_at - TOKEN_REFRESH_THRESHOLD →
      decryptTokenE (some k) auth.access_token_encrypted = .ok pt →
      getValidAccessToken (some k) db d now refreshResult iv1 iv2 =
        ⟨.ok pt, db, 0⟩) ∧
    (auth.expires_at - now < TOKEN_REFRESH_THRESHOLD →
      refreshResult = .ok tr →
      decryptTokenE (some k) auth.refresh_token_encrypted = .ok rt →
      getValidAccessToken (some k) db d now refreshResult iv1 iv2 =
        ⟨.ok tr.access_token,
          updateAuthorizationTokens db d (encEnvelope k iv1 tr.access_token)
            (encEnvelope k iv2 tr.refresh_token)
            (now + tr.expires_in * 1000) now, 1⟩ ∧
      getAuthorization
          (getValidAccessToken (some k) db d now refreshResult iv1 iv2).db d =
        some { auth with
          access_token_encrypted := encEnvelope k iv1 tr.access_token,
          refresh_token_encrypted := encEnvelope k iv2 tr.refresh_token,
          expires_at := now + tr.expires_in * 1000,
          updated_at := now }) := by
  have hdom : auth.merchant_domain = d := getAuthorization_domain db d auth hget
  refine ⟨rfl, ?_, ?_⟩
  · intro hfresh hdec
    have hcond : ¬ auth.expires_at - now < TOKEN_REFRESH_THRESHOLD := by
      simp only [TOKEN_REFRESH_THRESHOLD] at hfresh ⊢
      omega
    simp only [getValidAccessToken, hget, if_neg hcond, hdec]
  · intro hstale hres hrt
    subst hres
    have hr : refreshTokenIfNeeded (some k) db auth now (.ok tr) iv1 iv2 =
        (.ok (updateAuthorizationTokens db auth.merchant_domain
          (encEnvelope k iv1 tr.access_token) (encEnvelope k iv2 tr.refresh_token)
          (now + tr.expires_in * 1000) now), 1) := by
      simp only [refreshTokenIfNeeded, hrt, encryptTokenE, encryptToken, encEnvelope]
    have hmain : getValidAccessToken (some k) db d now (.ok tr) iv1 iv2 =
        ⟨.ok tr.access_token,
          updateAuthorizationTokens db d (encEnvelope k iv1 tr.access_token)
            (encEnvelope k iv2 tr.refresh_token)
            (now + tr.expires_in * 1000) now, 1⟩ := by
      simp only [getValidAccessToken, hget, if_pos hstale, hr, hdom]
      rw [getAuthorization_update, hget]
      simp [Option.map, decryptTokenE_encEnvelope]
    refine ⟨hmain, ?_⟩
    rw [hmain]
    rw [show (TokenCallResult.mk (.ok tr.access_token)
      (updateAuthorizationTokens db d (encEnvelope k iv1 tr.access_token)
        (encEnvelope k iv2 tr.refresh_token) (now + tr.expires_in * 1000) now)
      1).db = updateAuthorizationTokens db d (encEnvelope k iv1 tr.access_token)
        (encEnvelope k iv2 tr.refresh_token) (now + tr.expires_in * 1000) now
      from rfl]
    rw [getAuthorization_update, hget]
    rfl

/-- C1 witness: both branches evaluated concretely — a fresh token at time
0 against expiry 1000000 is returned unchanged with zero refresh calls,
and at time 900000 one refresh call persists the new pair with
expires_at 900000 + 3600 * 1000 and returns the new access token. -/
theorem C1_witness :
    getValidAccessToken (some 7) [sampleAuth 1000000] "shop.test" 0
        (.ok sampleTokenResponse) 8 9 =
      ⟨.ok [10, 20, 30], [sampleAuth 1000000], 0⟩ ∧
    getValidAccessToken (some 7) [sampleAuth 1000000] "shop.test" 900000
        (.ok sampleTokenResponse) 8 9 =
      ⟨.ok [11, 22],
        updateAuthorizationTokens [sampleAuth 1000000] "shop.test"
          (encEnvelope 7 8 [11, 22]) (encEnvelope 7 9 [33, 44])
          (900000 + 3600 * 1000) 900000, 1⟩ := by
  constructor
  · exact (C1_getValidAccessToken 7 [sampleAuth 1000000] "shop.test" 0
      (sampleAuth 1000000) (.ok sampleTokenResponse) 8 9 [10, 20, 30] [40, 50]
      sampleTokenResponse rfl).2.1 (by decide) (by decide)
  · exact ((C1_getValidAccessToken 7 [sampleAuth 1000000] "shop.test" 900000
      (sampleAuth 1000000) (.ok sampleTokenResponse) 8 9 [10, 20, 30] [40, 50]
      sampleTokenResponse rfl).2.2 (by decide) rfl (by decide)).1

/-- C8 counterexample: at a concrete near-expiry record, a refresh failure
with message boom is surfaced as the wrapped message, which differs from
the underlying message — the failure is fatal but not unmodified. -/
theorem C8_counterexample :
    getValidAccessToken (some 7) [sampleAuth 1000000] "shop.test" 900000
        (.error "boom") 8 9 =
      ⟨.error "Failed to refresh token for shop.test: boom",
        [sampleAuth 1000000], 1⟩ ∧
    "Failed to refresh token for shop.test: boom" ≠ "boom" := by
  constructor
  · decide
  · decide

/-- C8 (amended): when the refresh call fails, getValidAccessToken
surfaces a fatal failure wrapping the underlying message with the domain
context, makes exactly one refresh call with no retry and no fallback to
the stale token, and leaves the stored record untouched. -/
theorem C8_refresh_failure_fatal (k : Nat) (db : List MerchantAuthorization)
    (d : String) (now : Int) (auth : MerchantAuthorization) (e : String)
    (iv1 iv2 : Nat) (rt : List Nat)
    (hget : getAuthorization db d = some auth)
    (hstale : auth.expires_at - now < TOKEN_REFRESH_THRESHOLD)
    (hrt : decryptTokenE (some k) auth.refresh_token_encrypted = .ok rt) :
    getValidAccessToken (some k) db d now (.error e) iv1 iv2 =
      ⟨.error ("Failed to refresh token for " ++ d ++ ": " ++ e), db, 1⟩ := by
  have hdom : auth.merchant_domain = d := getAuthorization_domain db d auth hget
  have hr : refreshTokenIfNeeded (some k) db auth now (.error e) iv1 iv2 =
      (.error ("Failed to refresh token for " ++ auth.merchant_domain ++ ": " ++ e), 1) := by
    simp only [refreshTokenIfNeeded, hrt]
  rw [hdom] at hr
  simp only [getValidAccessToken, hget, if_pos hstale, hr]

/-- C8 witness: the amended statement at the concrete near-expiry record. -/
theorem C8_witness :
    getValidAccessToken (some 7) [sampleAuth 1000000] "shop.test" 900000
        (.error "boom") 8 9 =
      ⟨.error ("Failed to refresh token for " ++ "shop.test" ++ ": " ++ "boom"),
        [sampleAuth 1000000], 1⟩ :=
  C8_refresh_failure_fatal 7 [sampleAuth 1000000] "shop.test" 900000
    (sampleAuth 1000000) "boom" 8 9 [40, 50] rfl (by decide) (by decide)

theorem getAuthorization_delete (db : List MerchantAuthorization) (d : String) :
    getAuthorization (deleteAuthorization db d) d = none := by
  induction db with
  | nil => rfl
  | cons hd tl ih =>
    simp only [deleteAuthorization, getAuthorization, List.filter_cons] at ih ⊢
    by_cases h : (hd.merchant_domain == d) = true
    · simp only [h, Bool.not_true, Bool.false_eq_true, if_false]
      exact ih
    · have h2 : (hd.merchant_domain == d) = false := by
        cases hb : hd.merchant_domain == d
        · rfl
        · exact absurd hb h
      simp only [h2, Bool.not_false, if_true]
      rw [List.find?_cons_of_neg _ (by simp [h2])]
      exact ih

/-- C7: handleRevokeAuthorization deletes the local record whenever one
exists, for every outcome of the remote revocation and of the inner token
fetch (their failures are swallowed), and reports success; with no stored
record it fails with the NotAuthorized error and changes nothing. -/
theorem C7_revoke_unconditional_delete (key : Option Nat)
    (db : List MerchantAuthorization) (d : String) (now : Int)
    (refreshResult : Except String TokenResponse) (iv1 iv2 : Nat)
    (remoteRevokeOk : Bool) (auth : MerchantAuthorization) :
    (getAuthorization db d = some auth →
      handleRevokeAuthorization key db d now refreshResult iv1 iv2
          remoteRevokeOk =
        (.revoked d,
          deleteAuthorization
            (getValidAccessToken key db d now refreshResult iv1 iv2).db d) ∧
      getAuthorization
        (handleRevokeAuthorization key db d now refreshResult iv1 iv2
          remoteRevokeOk).2 d = none) ∧
    (getAuthorization db d = none →
      handleRevokeAuthorization key db d now refreshResult iv1 iv2
          remoteRevokeOk =
        (.failed ("No authorization found for " ++ d), db)) := by
  constructor
  · intro hget
    have h1 : handleRevokeAuthorization key db d now refreshResult iv1 iv2
        remoteRevokeOk =
        (.revoked d,
          deleteAuthorization
            (getValidAccessToken key db d now refreshResult iv1 iv2).db d) := by
      simp only [handleRevokeAuthorization, hget]
    refine ⟨h1, ?_⟩
    rw [h1]
    exact getAuthorization_delete _ d
  · intro hget
    simp only [handleRevokeAuthorization, hget]

/-- C7 witness: revoking the concrete stored record with a failing refresh
and a failing remote revocation still deletes it and reports success, and
revoking an unknown domain fails. -/
theorem C7_witness :
    (handleRevokeAuthorization (some 7) [sampleAuth 1000000] "shop.test"
        900000 (.error "boom") 8 9 false).2 = [] ∧
    (handleRevokeAuthorization (some 7) [sampleAuth 1000000] "shop.test"
        900000 (.error "boom") 8 9 false).1 = .revoked "shop.test" ∧
    handleRevokeAuthorization (some 7) [] "missing.test" 0 (.error "x") 8 9
        true =
      (.failed ("No authorization found for " ++ "missing.test"), []) := by
  obtain ⟨hsome, hnone⟩ :=
    C7_revoke_unconditional_delete (some 7) [sampleAuth 1000000] "shop.test"
      900000 (.error "boom") 8 9 false (sampleAuth 1000000)
  obtain ⟨heq, _⟩ := hsome (by decide)
  refine ⟨?_, ?_, ?_⟩
  · rw [heq]
    decide
  · rw [heq]
  · exact (C7_revoke_unconditional_delete (some 7) [] "missing.test" 0
      (.error "x") 8 9 true (sampleAuth 1000000)).2 rfl

theorem tryFallbackDiscovery_eq_none (wk hdr : Option String) :
    tryFallbackDiscovery wk hdr = none ↔
      jsTruthyStr wk = false ∧ jsTruthyStr hdr = false := by
  cases wk with
  | none =>
    cases hdr with
    | none => simp [tryFallbackDiscovery, jsTruthyStr]
    | some h =>
      by_cases hh : h = "" <;>
        simp [tryFallbackDiscovery, jsTruthyStr, hh]
  | some w =>
    cases hdr with
    | none =>
      by_cases hw : w = "" <;>
        simp [tryFallbackDiscovery, jsTruthyStr, hw]
    | some h =>
      by_cases hw : w = "" <;> by_cases hh : h = "" <;>
        simp [tryFallbackDiscovery, jsTruthyStr, hw, hh]

/-- C2: discoverSCPEndpoint tries the test-endpoint override, demo mode,
the unexpired cache row, the DNS TXT record, the well-known probe and the
header probe strictly in this order, short-circuiting on the first hit,
and resolves to nothing exactly when every step misses. -/
theorem C2_discovery_priority_chain (env : DiscoveryEnv) (domain : String) :
    (∀ t, checkTestEndpoint env.testEndpoint = some t →
      (discoverSCPEndpoint env domain).endpoint = .ok (some t)) ∧
    (checkTestEndpoint env.testEndpoint = none →
      jsTruthyBoolOpt (loadConfig env.configFile).demo_mode = true →
      (discoverSCPEndpoint env domain).endpoint =
        .ok (some (demoEndpointOf (loadConfig env.configFile)))) ∧
    (∀ row, checkTestEndpoint env.testEndpoint = none →
      jsTruthyBoolOpt (loadConfig env.configFile).demo_mode = false →
      getCachedEndpoint env.cacheEntry env.now = some row →
      (discoverSCPEndpoint env domain).endpoint = .ok (some row.endpoint)) ∧
    (∀ u, checkTestEndpoint env.testEndpoint = none →
      jsTruthyBoolOpt (loadConfig env.configFile).demo_mode = false →
      getCachedEndpoint env.cacheEntry env.now = none →
      tryDNSDiscovery env.dnsTxt = .ok (some u) →
      (discoverSCPEndpoint env domain).endpoint = .ok (some u)) ∧
    (∀ w, checkTestEndpoint env.testEndpoint = none →
      jsTruthyBoolOpt (loadConfig env.configFile).demo_mode = false →
      getCachedEndpoint env.cacheEntry env.now = none →
      tryDNSDiscovery env.dnsTxt = .ok none →
      env.wellKnownEndpoint = some w → w ≠ "" →
      (discoverSCPEndpoint env domain).endpoint = .ok (some w)) ∧
    (∀ h, checkTestEndpoint env.testEndpoint = none →
      jsTruthyBoolOpt (loadConfig env.configFile).demo_mode = false →
      getCachedEndpoint env.cacheEntry env.now = none →
      tryDNSDiscovery env.dnsTxt = .ok none →
      jsTruthyStr env.wellKnownEndpoint = false →
      env.headerEndpoint = some h → h ≠ "" →
      (discoverSCPEndpoint env domain).endpoint = .ok (some h)) ∧
    ((discoverSCPEndpoint env domain).endpoint = .ok none ↔
      (checkTestEndpoint env.testEndpoint = none ∧
       jsTruthyBoolOpt (loadConfig env.configFile).demo_mode = false ∧
       getCachedEndpoint env.cacheEntry env.now = none ∧
       tryDNSDiscovery env.dnsTxt = .ok none ∧
       jsTruthyStr env.wellKnownEndpoint = false ∧
       jsTruthyStr env.headerEndpoint = false)) := by
  refine ⟨?_, ?_, ?_, ?_, ?_, ?_, ?_⟩
  · intro t ht
    simp [discoverSCPEndpoint, ht]
  · intro ht hd
    simp [discoverSCPEndpoint, ht, hd]
  · intro row ht hd hc
    simp [discoverSCPEndpoint, ht, hd, hc]
  · intro u ht hd hc hdns
    simp [discoverSCPEndpoint, ht, hd, hc, hdns]
  · intro w ht hd hc hdns hw hne
    have hwt : jsTruthyStr (some w) = true := by simp [jsTruthyStr, hne]
    simp [discoverSCPEndpoint, tryFallbackDiscovery, ht, hd, hc, hdns, hw, hwt]
  · intro h ht hd hc hdns hw hh hne
    have hht : jsTruthyStr (some h) = true := by simp [jsTruthyStr, hne]
    simp [discoverSCPEndpoint, tryFallbackDiscovery, ht, hd, hc, hdns, hw,
      hh, hht]
  · constructor
    · intro hmiss
      cases ht : checkTestEndpoint env.testEndpoint with
      | some t => simp [discoverSCPEndpoint, ht] at hmiss
      | none =>
        cases hd : jsTruthyBoolOpt (loadConfig env.configFile).demo_mode with
        | true => simp [discoverSCPEndpoint, ht, hd] at hmiss
        | false =>
          cases hc : getCachedEndpoint env.cacheEntry env.now with
          | some row => simp [discoverSCPEndpoint, ht, hd, hc] at hmiss
          | none =>
            cases hdns : tryDNSDiscovery env.dnsTxt with
            | error e => simp [discoverSCPEndpoint, ht, hd, hc, hdns] at hmiss
            | ok o =>
              cases o with
              | some u => simp [discoverSCPEndpoint, ht, hd, hc, hdns] at hmiss
              | none =>
                cases hfb : tryFallbackDiscovery env.wellKnownEndpoint
                    env.headerEndpoint with
                | some fb =>
                  simp [discoverSCPEndpoint, ht, hd, hc, hdns, hfb] at hmiss
                | none =>
                  obtain ⟨hw, hh⟩ := (tryFallbackDiscovery_eq_none _ _).1 hfb
                  exact ⟨rfl, rfl, rfl, rfl, hw, hh⟩
    · rintro ⟨ht, hd, hc, hdns, hw, hh⟩
      have hfb : tryFallbackDiscovery env.wellKnownEndpoint env.headerEndpoint =
          none := (tryFallbackDiscovery_eq_none _ _).2 ⟨hw, hh⟩
      simp [discoverSCPEndpoint, ht, hd, hc, hdns, hfb]

/-- C2 witness: an all-miss environment resolves to nothing, and the same
environment with a TXT hit resolves to the TXT endpoint. -/
theorem C2_witness :
    (discoverSCPEndpoint envAllMiss "shop.test").endpoint = .ok none ∧
    (discoverSCPEndpoint
        { envAllMiss with
          dnsTxt := .ok [["v=scp1 endpoint=https://x.example/v1"]] }
        "shop.test").endpoint = .ok (some "https://x.example/v1") := by
  constructor
  · exact ((C2_discovery_priority_chain envAllMiss "shop.test").2.2.2.2.2.2).2
      ⟨rfl, rfl, rfl, rfl, rfl, rfl⟩
  · exact (C2_discovery_priority_chain
      { envAllMiss with
        dnsTxt := .ok [["v=scp1 endpoint=https://x.example/v1"]] }
      "shop.test").2.2.2.1 "https://x.example/v1" rfl rfl rfl (by rfl)

/-- C10: the shipped DEFAULT_CONFIG has demo_mode on; with no config file
loadConfig returns exactly the defaults; and under that state, with no
test-endpoint override, discovery returns the configured demo endpoint for
every domain without touching the cache, DNS, the well-known probe or the
header probe (zero network calls, no cache access or write), whatever
those sources hold. -/
theorem C10_default_demo_mode (cacheEntry : Option EndpointCache) (now : Int)
    (dnsTxt : Except DnsError (List (List String)))
    (wk hdr : Option String) (domain : String) :
    DEFAULT_CONFIG.demo_mode = some true ∧
    loadConfig none = DEFAULT_CONFIG ∧
    discoverSCPEndpoint ⟨none, none, cacheEntry, now, dnsTxt, wk, hdr⟩ domain =
      ⟨.ok (some "https://demo.shoppercontextprotocol.io/v1"), [], 0⟩ :=
  ⟨rfl, rfl, rfl⟩

theorem mem_foldl_dedup (l : List String) :
    ∀ (acc : List String) (s : String),
      s ∈ l.foldl (fun acc s => if s ∈ acc then acc else acc ++ [s]) acc ↔
        s ∈ acc ∨ s ∈ l := by
  induction l with
  | nil => intro acc s; simp
  | cons x xs ih =>
    intro acc s
    simp only [List.foldl_cons]
    by_cases hx : x ∈ acc
    · rw [if_pos hx, ih]
      have hsx : s = x → s ∈ acc := fun h => h ▸ hx
      simp only [List.mem_cons]
      tauto
    · rw [if_neg hx, ih]
      simp only [List.mem_append, List.mem_singleton, List.mem_cons]
      tauto

theorem nodup_foldl_dedup (l : List String) :
    ∀ acc : List String, acc.Nodup →
      (l.foldl (fun acc s => if s ∈ acc then acc else acc ++ [s]) acc).Nodup := by
  induction l with
  | nil => intro acc h; simpa using h
  | cons x xs ih =>
    intro acc h
    simp only [List.foldl_cons]
    by_cases hx : x ∈ acc
    · rw [if_pos hx]; exact ih acc h
    · rw [if_neg hx]
      refine ih _ ?_
      simp [List.nodup_append, h, hx, List.disjoint_singleton]

theorem mem_dedupScopes (l : List String) (s : String) :
    s ∈ dedupScopes l ↔ s ∈ l := by
  simp [dedupScopes, mem_foldl_dedup]

theorem nodup_dedupScopes (l : List String) : (dedupScopes l).Nodup :=
  nodup_foldl_dedup l [] (by simp)

theorem scopesMatch_of_set_eq (existing requested : List String)
    (h : ∀ s, s ∈ requested ↔ s ∈ existing) :
    scopesMatch existing requested = true := by
  have hperm : (dedupScopes requested).Perm (dedupScopes existing) :=
    (List.perm_ext_iff_of_nodup (nodup_dedupScopes _) (nodup_dedupScopes _)).2
      (fun a => by rw [mem_dedupScopes, mem_dedupScopes]; exact h a)
  have hlen : (dedupScopes requested).length = (dedupScopes existing).length :=
    hperm.length_eq
  simp only [scopesMatch, Bool.and_eq_true, beq_iff_eq, List.all_eq_true]
  constructor
  · omega
  · intro s hs
    have hmem : s ∈ dedupScopes existing := by
      rw [mem_dedupScopes]
      exact (h s).1 ((mem_dedupScopes _ _).1 hs)
    rw [List.contains_iff_exists_mem_beq]
    exact ⟨s, hmem, by simp⟩

/-- C5 counterexample: a stored record whose customer email contains the
substring example, re-authorized with the very same email and scope set,
is answered by the invalid-email gate — not by the already-authorized
short-circuit the claim promises (though still with zero network calls
and an unchanged record). -/
theorem C5_counterexample :
    handleAuthorize (some 7) [exampleEmailAuth] "shop.test" "bob@example.com"
        ["orders"] sampleAuthEnv 0 8 9 =
      (.invalidEmail "bob@example.com", [exampleEmailAuth], 0) ∧
    exampleEmailAuth.customer_email = "bob@example.com" ∧
    scopesMatch exampleEmailAuth.scopes ["orders"] = true ∧
    AuthorizeResult.invalidEmail "bob@example.com" ≠
      AuthorizeResult.alreadyAuthorized "bob@example.com" ["orders"] := by
  exact ⟨by decide, rfl, by decide, by decide⟩

/-- C5 (amended): for a stored record and a request whose email passes the
email validation gate, matches the stored customer email, and whose scope
set equals the stored scope set as a set, handleAuthorize short-circuits
with the already-authorized answer, zero network calls and an unchanged
database. -/
theorem C5_already_authorized_short_circuit (key : Option Nat)
    (db : List MerchantAuthorization) (domain email : String)
    (scopes : List String) (env : AuthEnv) (now : Int) (iv1 iv2 : Nat)
    (existing : MerchantAuthorization)
    (hget : getAuthorization db domain = some existing)
    (hgate : isRejectedEmail email = false)
    (hemail : existing.customer_email = email)
    (hscopes : ∀ s, s ∈ scopes ↔ s ∈ existing.scopes) :
    handleAuthorize key db domain email scopes env now iv1 iv2 =
      (.alreadyAuthorized existing.customer_email existing.scopes, db, 0) := by
  have hsm : scopesMatch existing.scopes scopes = true :=
    scopesMatch_of_set_eq existing.scopes scopes hscopes
  simp [handleAuthorize, hgate, hget, hsm, hemail]

/-- C5 witness: the amended short-circuit evaluated at the concrete stored
record, with the scope list given in different order and with a repeat. -/
theorem C5_witness :
    handleAuthorize (some 7) [sampleAuth 1000000] "shop.test"
        "alice@real.test" ["orders", "orders"] sampleAuthEnv 0 8 9 =
      (.alreadyAuthorized "alice@real.test" ["orders"],
        [sampleAuth 1000000], 0) :=
  C5_already_authorized_short_circuit (some 7) [sampleAuth 1000000]
    "shop.test" "alice@real.test" ["orders", "orders"] sampleAuthEnv 0 8 9
    (sampleAuth 1000000) rfl (by decide) rfl
    (fun s => by simp [sampleAuth])

/-- C6 counterexample: with a stored record for alice, an authorize call
under a different email that contains the substring example is answered by
the invalid-email gate — not by the identity-conflict failure the claim
promises (though still with no discovery, no flow, no upsert and an
unchanged record). -/
theorem C6_counterexample :
    handleAuthorize (some 7) [sampleAuth 1000000] "shop.test"
        "mallory@example.com" ["orders"] sampleAuthEnv 0 8 9 =
      (.invalidEmail "mallory@example.com", [sampleAuth 1000000], 0) ∧
    (sampleAuth 1000000).customer_email ≠ "mallory@example.com" ∧
    AuthorizeResult.invalidEmail "mallory@example.com" ≠
      AuthorizeResult.identityConflict "alice@real.test"
        "mallory@example.com" := by
  exact ⟨by decide, by decide, by decide⟩

/-- C6 (amended): for a stored record and a request whose email passes the
email validation gate but differs from the stored customer email,
handleAuthorize refuses with the identity-conflict answer instructing a
revoke first, with zero network calls and an unchanged database. -/
theorem C6_identity_conflict_refusal (key : Option Nat)
    (db : List MerchantAuthorization) (domain email : String)
    (scopes : List String) (env : AuthEnv) (now : Int) (iv1 iv2 : Nat)
    (existing : MerchantAuthorization)
    (hget : getAuthorization db domain = some existing)
    (hgate : isRejectedEmail email = false)
    (hemail : existing.customer_email ≠ email) :
    handleAuthorize key db domain email scopes env now iv1 iv2 =
      (.identityConflict existing.customer_email email, db, 0) := by
  simp [handleAuthorize, hgate, hget, hemail]

/-- C6 witness: the amended refusal evaluated at the concrete stored
record and a different, gate-passing email. -/
theorem C6_witness :
    handleAuthorize (some 7) [sampleAuth 1000000] "shop.test"
        "carol@real.test" ["orders"] sampleAuthEnv 0 8 9 =
      (.identityConflict "alice@real.test" "carol@real.test",
        [sampleAuth 1000000], 0) :=
  C6_identity_conflict_refusal (some 7) [sampleAuth 1000000] "shop.test"
    "carol@real.test" ["orders"] sampleAuthEnv 0 8 9 (sampleAuth 1000000)
    rfl (by decide) (by decide)

end SCP
